import Mathlib

/-!
# Verification of the AI Support Ticket Automation backend

Shallow embedding of the core of the repository (`app/db.py`, `app/ai.py`,
`app/models.py`, `app/main.py`):

* The SQLite ticket table becomes a Lean structure `Ticket` inside a
  `TicketDB` state holding the rows and the `AUTOINCREMENT` counter.
* SQLite `datetime('now')` TEXT timestamps sort lexicographically in
  chronological order, so timestamps are modelled as `Nat` clock values;
  each operation receives the current clock explicitly.
* `analyze_ticket` (app/ai.py) talks to an external model provider.  The
  environment is captured in `AiEnv`: the `OPENAI_API_KEY` value from the
  process environment, the outcome of the strict-schema completion call,
  the outcome of the JSON-mode fallback call (each either a raised
  exception, modelled as `.error msg`, or a returned content string), and
  the `json.loads` parse function.  Parsed JSON objects are modelled as
  association lists `String × Option String` (the inner `Option` is JSON
  `null`); Python `dict.get` returns `None` both for a missing key and a
  `null` value, which `dictGet` mirrors.
* FastAPI/pydantic request validation (`TicketCreate`, `TicketUpdate`,
  `Query` bounds) runs before the handlers; it is embedded as explicit
  boolean validators applied before the handler logic, in the order the
  framework applies them.
-/

namespace TicketApp

/-- Python truthiness of a `str | None` value: `None` and `""` are falsy.
Used for `if not api_key` in `app/ai.py` and `if status:` in
`list_tickets` (app/main.py). -/
def pyTruthy : Option String → Bool
  | none => false
  | some s => s ≠ ""

/-- A parsed JSON object as returned by `json.loads`, restricted to the
string-or-null values the ticket schema uses: an association list from key
to value, `none` standing for JSON `null`. -/
abbrev AiDict : Type := List (String × Option String)

/-- Python `dict.get(key)`: the first binding's value if the key is
present (possibly `null`), `None` otherwise. -/
def dictGet (d : AiDict) (k : String) : Option String :=
  match List.find? (fun kv => kv.1 = k) d with
  | some kv => kv.2
  | none => none

/-- Errors escaping `analyze_ticket` (app/ai.py): the `RuntimeError`
raised when `OPENAI_API_KEY` is missing, or the exception of the failed
fallback call / parse. -/
inductive AiError : Type where
  | configError (msg : String)
  | callError (msg : String)
deriving DecidableEq, Repr

/-- The message of the `RuntimeError` raised by `analyze_ticket` when the
credential is absent (app/ai.py line 22). -/
def missingKeyMsg : String :=
  "OPENAI_API_KEY is missing. Ensure .env exists in project root and contains OPENAI_API_KEY=..."

/-- The extra user message of the fallback call (app/ai.py line 73),
reminding the model of the required keys. -/
def jsonModeReminder : String :=
  "Return ONLY a valid JSON object with keys: priority, category, summary, suggested_reply."

/-- A completion request issued to the external model provider: the
strict output-schema request, or the permissive JSON-mode request
carrying its textual reminder of the required keys. -/
inductive ModelRequest : Type where
  | strict
  | fallbackJson (reminder : String)
deriving DecidableEq, Repr

/-- The environment `analyze_ticket` runs in: the `OPENAI_API_KEY` value,
the outcome of each of the two possible provider calls (`.error` models a
raised exception, `.ok content` the response content string), and the
`json.loads` parse of a content string. -/
structure AiEnv : Type where
  apiKey : Option String
  strictResp : Except String String
  fallbackResp : Except String String
  parse : String → Except String AiDict

/-- `analyze_ticket` (app/ai.py lines 19-80), instrumented with the list
of provider requests it issues.  If the credential is falsy it raises the
configuration `RuntimeError` before any call.  Otherwise it issues the
strict-schema request and parses the content; if either step raises, it
issues exactly one JSON-mode fallback request (with the key reminder) and
parses that; a failure there propagates. -/
def analyze_run (env : AiEnv) : Except AiError AiDict × List ModelRequest :=
  if pyTruthy env.apiKey = false then
    (Except.error (AiError.configError missingKeyMsg), [])
  else
    match env.strictResp.bind env.parse with
    | Except.ok d => (Except.ok d, [ModelRequest.strict])
    | Except.error _ =>
      match env.fallbackResp.bind env.parse with
      | Except.ok d =>
        (Except.ok d, [ModelRequest.strict, ModelRequest.fallbackJson jsonModeReminder])
      | Except.error e =>
        (Except.error (AiError.callError e),
         [ModelRequest.strict, ModelRequest.fallbackJson jsonModeReminder])

/-- `analyze_ticket`'s result (the value returned or exception raised). -/
def analyze_ticket (env : AiEnv) : Except AiError AiDict :=
  (analyze_run env).1

/-- A row of the `tickets` table (schema in `init_db`, app/db.py lines
41-64).  `status` is `NOT NULL` so it is a plain `String`; the nullable
columns are `Option String`; timestamps are clock values (`Nat`). -/
structure Ticket : Type where
  id : Nat
  source : String
  customer_name : Option String
  customer_email : Option String
  subject : String
  body : String
  status : String
  priority : Option String
  category : Option String
  summary : Option String
  suggested_reply : Option String
  created_at : Nat
  updated_at : Nat
deriving DecidableEq, Repr

/-- The ticket store: the table rows in insertion order plus the
`AUTOINCREMENT` counter (next id to assign, never reused). -/
structure TicketDB : Type where
  rows : List Ticket
  nextId : Nat
deriving DecidableEq, Repr

/-- Store well-formedness: every persisted id is below the
`AUTOINCREMENT` counter, which is what SQLite's `AUTOINCREMENT` keyword
guarantees (ids are assigned increasingly and never reused). -/
def WF (db : TicketDB) : Prop :=
  ∀ t ∈ db.rows, t.id < db.nextId

/-- The validated body of `POST /tickets` (`TicketCreate`,
app/models.py lines 11-16). -/
structure TicketCreate : Type where
  source : String
  customer_name : Option String
  customer_email : Option String
  subject : String
  body : String
deriving DecidableEq, Repr

/-- Pydantic validation of `TicketCreate`: `subject` and `body` have
`min_length=1`.  (`customer_email` syntax checking by `EmailStr` is not
re-modelled: no claim depends on it, and an accepted value is passed
through unchanged.) -/
def validCreate (t : TicketCreate) : Bool :=
  t.subject ≠ "" && t.body ≠ ""

/-- `create_ticket` (app/main.py lines 46-100): run AI analysis, fall
back to an all-`None` dict if it raises any exception, then INSERT the
row (status defaults to `'new'`, both timestamps default to the statement
time) and return the freshly selected row.  Returns the new store
state and the response record; creation itself never fails. -/
def create_ticket (env : AiEnv) (db : TicketDB) (now : Nat) (t : TicketCreate) :
    TicketDB × Ticket :=
  let ai : AiDict :=
    match analyze_ticket env with
    | Except.ok d => d
    | Except.error _ =>
      [("priority", none), ("category", none), ("summary", none), ("suggested_reply", none)]
  let r : Ticket :=
    { id := db.nextId
      source := t.source
      customer_name := t.customer_name
      customer_email := t.customer_email
      subject := t.subject
      body := t.body
      status := "new"
      priority := dictGet ai "priority"
      category := dictGet ai "category"
      summary := dictGet ai "summary"
      suggested_reply := dictGet ai "suggested_reply"
      created_at := now
      updated_at := now }
  ({ rows := db.rows ++ [r], nextId := db.nextId + 1 }, r)

/-- `get_ticket` (app/main.py lines 105-118): `SELECT * FROM tickets
WHERE id = ?`; `none` models the 404 raised when no row matches. -/
def get_ticket (db : TicketDB) (id : Nat) : Option Ticket :=
  List.find? (fun t => t.id = id) db.rows

/-- `ORDER BY created_at DESC`: row `a` may precede row `b` when
`b.created_at ≤ a.created_at` (TEXT datetimes compare lexicographically,
i.e. chronologically; SQLite fixes no order among equal keys). -/
def createdDesc (a b : Ticket) : Prop := b.created_at ≤ a.created_at

instance : DecidableRel createdDesc := fun a b => Nat.decLe b.created_at a.created_at

instance : IsTotal Ticket createdDesc :=
  ⟨fun a b => Nat.le_total b.created_at a.created_at⟩

instance : IsTrans Ticket createdDesc :=
  ⟨fun _ _ _ h h' => Nat.le_trans h' h⟩

/-- The query of `list_tickets` (app/main.py lines 133-144): optional
`WHERE status = ?` (only when the `status` parameter is truthy), then
`ORDER BY created_at DESC LIMIT ? OFFSET ?`. -/
def list_tickets (db : TicketDB) (status : Option String) (limit offset : Nat) :
    List Ticket :=
  let rows :=
    if pyTruthy status then db.rows.filter (fun t => t.status = status.getD "")
    else db.rows
  ((List.insertionSort createdDesc rows).drop offset).take limit

/-- Errors the endpoints surface: FastAPI's 422 for a request failing
validation, the handler's explicit 400 for an empty patch, the 404 for an
unknown id, and the 500 produced by an unhandled `sqlite3.IntegrityError`
(a `NOT NULL` constraint violation). -/
inductive ApiError : Type where
  | validation422
  | noFields400
  | notFound404
  | integrityError500
deriving DecidableEq, Repr

/-- `GET /tickets` (app/main.py lines 123-146) including the `Query`
parameter validation: `limit` defaults to 20 and must lie in `[1, 100]`,
`offset` defaults to 0 and must be `≥ 0`; out-of-range values are
rejected with 422 before the handler runs. -/
def list_endpoint (db : TicketDB) (status : Option String)
    (limitArg offsetArg : Option Int) : Except ApiError (List Ticket) :=
  let limit := limitArg.getD 20
  let offset := offsetArg.getD 0
  if 1 ≤ limit ∧ limit ≤ 100 ∧ 0 ≤ offset then
    Except.ok (list_tickets db status limit.toNat offset.toNat)
  else
    Except.error ApiError.validation422

/-- The body of `PATCH /tickets/{id}` (`TicketUpdate`, app/models.py
lines 36-41) with pydantic's distinction between an unset field and a
field explicitly set to `null`: the outer `Option` is "present in the
request", the inner one is the value (`none` = JSON `null`). -/
structure TicketUpdate : Type where
  status : Option (Option String)
  priority : Option (Option String)
  category : Option (Option String)
  summary : Option (Option String)
  suggested_reply : Option (Option String)
deriving DecidableEq, Repr

/-- The `status` enum (`Literal` in `TicketUpdate`, also the CHECK-free
value set of app/db.py). -/
def statusEnum : List String := ["new", "open", "pending", "resolved", "closed"]

/-- The `priority` enum of `TicketUpdate`. -/
def priorityEnum : List String := ["low", "medium", "high"]

/-- The `category` enum of `TicketUpdate`. -/
def categoryEnum : List String := ["billing", "technical", "account", "other"]

/-- An optional enum-constrained field passes pydantic validation when it
is unset, explicitly `null`, or a member of its enum. -/
def enumFieldOk (allowed : List String) : Option (Option String) → Bool
  | some (some v) => allowed.contains v
  | _ => true

/-- Pydantic validation of `TicketUpdate`: each present non-null
status/priority/category value must belong to its `Literal` enum
(summary and suggested_reply accept any string). -/
def validUpdate (p : TicketUpdate) : Bool :=
  enumFieldOk statusEnum p.status
    && enumFieldOk priorityEnum p.priority
    && enumFieldOk categoryEnum p.category

/-- Number of fields present in the request, i.e. the length of
`patch.model_dump(exclude_unset=True)` in `update_ticket`. -/
def setCount (p : TicketUpdate) : Nat :=
  (if p.status.isSome then 1 else 0)
    + (if p.priority.isSome then 1 else 0)
    + (if p.category.isSome then 1 else 0)
    + (if p.summary.isSome then 1 else 0)
    + (if p.suggested_reply.isSome then 1 else 0)

/-- The effect of the parameterized `UPDATE tickets SET ...` on one row:
each present field overwrites the column (an explicit `null` stores
NULL), and the `tickets_updated_at` trigger (app/db.py lines 67-78) then
refreshes `updated_at` to the statement time.  Only called on patches
whose `status` is not an explicit `null` (that case violates `NOT NULL`
before any row is produced). -/
def applyPatch (r : Ticket) (p : TicketUpdate) (now : Nat) : Ticket :=
  { r with
    status := match p.status with
      | some (some v) => v
      | _ => r.status
    priority := match p.priority with
      | some v => v
      | none => r.priority
    category := match p.category with
      | some v => v
      | none => r.category
    summary := match p.summary with
      | some v => v
      | none => r.summary
    suggested_reply := match p.suggested_reply with
      | some v => v
      | none => r.suggested_reply
    updated_at := now }

/-- `update_ticket` (app/main.py lines 149-184), after pydantic
validation: reject an empty patch with 400 before touching the store; run
the UPDATE — `rowcount == 0` (no row with this id) yields 404; a present
`status: null` on an existing row violates the `NOT NULL` constraint, the
`IntegrityError` escapes as a 500 and the transaction rolls back;
otherwise the row is rewritten, the trigger refreshes `updated_at`, and
the re-selected row is returned.  The returned store is unchanged on
every error. -/
def update_ticket (db : TicketDB) (now : Nat) (id : Nat) (p : TicketUpdate) :
    Except ApiError Ticket × TicketDB :=
  if setCount p = 0 then (Except.error ApiError.noFields400, db)
  else
    match List.find? (fun t => t.id = id) db.rows with
    | none => (Except.error ApiError.notFound404, db)
    | some r =>
      if p.status = some none then (Except.error ApiError.integrityError500, db)
      else
        let r' := applyPatch r p now
        let db' : TicketDB :=
          { db with rows := db.rows.map (fun t => if t.id = id then r' else t) }
        (Except.ok r', db')

/-- `PATCH /tickets/{id}` including pydantic validation of the body,
which rejects an out-of-enum value with 422 before the handler runs. -/
def update_endpoint (db : TicketDB) (now : Nat) (id : Nat) (p : TicketUpdate) :
    Except ApiError Ticket × TicketDB :=
  if validUpdate p then update_ticket db now id p
  else (Except.error ApiError.validation422, db)

/-! ## Concrete fixtures used by witnesses and counterexamples -/

/-- A triage result the provider could return. -/
def okDict : AiDict :=
  [("priority", some "high"), ("category", some "technical"),
   ("summary", some "Login broken"), ("suggested_reply", some "We are on it.")]

/-- Healthy environment: credential set, strict call succeeds and
parses. -/
def envOk : AiEnv :=
  { apiKey := some "sk-test"
    strictResp := Except.ok "strict-content"
    fallbackResp := Except.ok "fallback-content"
    parse := fun _ => Except.ok okDict }

/-- Degraded environment: credential set but both provider calls
raise. -/
def envBothFail : AiEnv :=
  { apiKey := some "sk-test"
    strictResp := Except.error "boom-strict"
    fallbackResp := Except.error "boom-fallback"
    parse := fun _ => Except.error "unreachable" }

/-- Misconfigured environment: `OPENAI_API_KEY` unset. -/
def envNoKey : AiEnv :=
  { apiKey := none
    strictResp := Except.error "net"
    fallbackResp := Except.error "net"
    parse := fun _ => Except.error "net" }

/-- A valid creation request body. -/
def t0 : TicketCreate :=
  { source := "web"
    customer_name := some "Ann Lee"
    customer_email := some "ann@example.com"
    subject := "Login broken"
    body := "I cannot log in since Monday." }

/-- The store right after `init_db` on a fresh database: no rows, first
`AUTOINCREMENT` id is 1. -/
def db0 : TicketDB := { rows := [], nextId := 1 }

/-- An existing ticket created at clock 10. -/
def tick1 : Ticket :=
  { id := 1, source := "web", customer_name := none, customer_email := none
    subject := "First", body := "first body", status := "new"
    priority := none, category := none, summary := none, suggested_reply := none
    created_at := 10, updated_at := 10 }

/-- A later ticket created at clock 20. -/
def tick2 : Ticket :=
  { id := 2, source := "email", customer_name := some "Bo", customer_email := some "bo@x.io"
    subject := "Second", body := "second body", status := "open"
    priority := some "high", category := some "technical"
    summary := some "sum", suggested_reply := some "rep"
    created_at := 20, updated_at := 20 }

/-- A store holding the two fixture tickets. -/
def db2 : TicketDB := { rows := [tick1, tick2], nextId := 3 }

/-- Patch setting only `status` to `"resolved"`. -/
def patchResolve : TicketUpdate :=
  { status := some (some "resolved"), priority := none, category := none
    summary := none, suggested_reply := none }

/-- The empty patch (no field present). -/
def patchEmpty : TicketUpdate :=
  { status := none, priority := none, category := none
    summary := none, suggested_reply := none }

/-- Patch with an out-of-enum priority value. -/
def patchBadPriority : TicketUpdate :=
  { status := none, priority := some (some "urgent"), category := none
    summary := none, suggested_reply := none }

/-- Patch explicitly nulling the four nullable AI fields. -/
def patchNullAiFields : TicketUpdate :=
  { status := none, priority := some none, category := some none
    summary := some none, suggested_reply := some none }

/-- Patch explicitly nulling `status`, a `NOT NULL` column. -/
def patchNullStatus : TicketUpdate :=
  { status := some none, priority := none, category := none
    summary := none, suggested_reply := none }

/-- Whether a provider request is the JSON-mode fallback. -/
def isFallbackReq : ModelRequest → Bool
  | ModelRequest.strict => false
  | ModelRequest.fallbackJson _ => true

/-! ## Theorems -/

/-- **C1.** For every valid creation input, if the AI triage call fails for
any reason — both the strict-schema call and the fallback call raise, so
`analyze_ticket` itself raises — `create` still succeeds (`create_ticket` is
total: it always returns a persisted record) and the returned record has
`priority`, `category`, `summary` and `suggested_reply` all absent, and is
persisted in the store; the triage failure is never surfaced to the creation
caller as an error. -/
theorem create_survives_triage_failure
    (env : AiEnv) (db : TicketDB) (now : Nat) (t : TicketCreate) (e : AiError)
    (_hv : validCreate t = true)
    (hfail : analyze_ticket env = Except.error e) :
    (create_ticket env db now t).2.priority = none
    ∧ (create_ticket env db now t).2.category = none
    ∧ (create_ticket env db now t).2.summary = none
    ∧ (create_ticket env db now t).2.suggested_reply = none
    ∧ (create_ticket env db now t).2 ∈ (create_ticket env db now t).1.rows := by
  simp [create_ticket, hfail, dictGet]

/-- Witness for C1: a concrete environment where the strict call and the
fallback call both raise. -/
theorem create_survives_triage_failure_w :
    (create_ticket envBothFail db0 3 t0).2.priority = none
    ∧ (create_ticket envBothFail db0 3 t0).2.category = none
    ∧ (create_ticket envBothFail db0 3 t0).2.summary = none
    ∧ (create_ticket envBothFail db0 3 t0).2.suggested_reply = none
    ∧ (create_ticket envBothFail db0 3 t0).2 ∈ (create_ticket envBothFail db0 3 t0).1.rows :=
  create_survives_triage_failure envBothFail db0 3 t0 (AiError.callError "boom-fallback")
    rfl rfl

/-- **C2 counterexample.** A missing credential is *not* surfaced distinctly
at the system boundary: `create_ticket`'s blanket exception handler treats
the configuration `RuntimeError` exactly like an ordinary triage failure.
At a concrete input, `analyze_ticket` raises distinguishable errors for the
two environments, yet creation yields literally identical outcomes (same
stored state, same response, no error), so the creation caller — the only
consumer of triage — cannot distinguish "misconfigured" from "degraded". -/
theorem configError_masked_like_triage_failure :
    analyze_ticket envNoKey = Except.error (AiError.configError missingKeyMsg)
    ∧ analyze_ticket envBothFail = Except.error (AiError.callError "boom-fallback")
    ∧ create_ticket envNoKey db0 5 t0 = create_ticket envBothFail db0 5 t0 :=
  ⟨rfl, rfl, rfl⟩

/-- **C2 (amended).** When the provider credential is absent (unset or
empty), any triage attempt fails fast: `analyze_ticket` raises the distinct
configuration `RuntimeError` before issuing a single model request — an
error distinguishable by construction from a triage-call failure.  But the
creation path handles it identically to a triage failure: the blanket
handler masks it and the ticket is created with all AI fields absent. -/
theorem missing_credential_fails_fast
    (env : AiEnv) (db : TicketDB) (now : Nat) (t : TicketCreate)
    (hk : pyTruthy env.apiKey = false) :
    analyze_run env = (Except.error (AiError.configError missingKeyMsg), [])
    ∧ (∀ m m', AiError.configError m ≠ AiError.callError m')
    ∧ (create_ticket env db now t).2.priority = none
    ∧ (create_ticket env db now t).2.category = none
    ∧ (create_ticket env db now t).2.summary = none
    ∧ (create_ticket env db now t).2.suggested_reply = none := by
  have h1 : analyze_run env = (Except.error (AiError.configError missingKeyMsg), []) := by
    unfold analyze_run
    rw [if_pos hk]
  have h2 : analyze_ticket env = Except.error (AiError.configError missingKeyMsg) := by
    unfold analyze_ticket
    rw [h1]
  refine ⟨h1, ?_, ?_, ?_, ?_, ?_⟩
  · intro m m' h
    cases h
  all_goals simp [create_ticket, h2, dictGet]

/-- Witness for C2's amended theorem: the concrete misconfigured
environment. -/
theorem missing_credential_fails_fast_w :
    analyze_run envNoKey = (Except.error (AiError.configError missingKeyMsg), [])
    ∧ (∀ m m', AiError.configError m ≠ AiError.callError m')
    ∧ (create_ticket envNoKey db0 5 t0).2.priority = none
    ∧ (create_ticket envNoKey db0 5 t0).2.category = none
    ∧ (create_ticket envNoKey db0 5 t0).2.summary = none
    ∧ (create_ticket envNoKey db0 5 t0).2.suggested_reply = none :=
  missing_credential_fails_fast envNoKey db0 5 t0 rfl

/-- **C3.** For every valid creation input (and any well-formed store),
`create` succeeds and returns a record with `status = "new"`, with
`created_at` and `updated_at` both equal to the creation instant (hence
equal to each other), and with a freshly assigned id never equal to the id
of any previously created ticket; well-formedness is preserved, so the
freshness of ids is an invariant of the store. -/
theorem create_fresh_record
    (env : AiEnv) (db : TicketDB) (now : Nat) (t : TicketCreate)
    (_hv : validCreate t = true) (hwf : WF db) :
    (create_ticket env db now t).2.status = "new"
    ∧ (create_ticket env db now t).2.created_at = now
    ∧ (create_ticket env db now t).2.updated_at = now
    ∧ (create_ticket env db now t).2.id ∉ db.rows.map Ticket.id
    ∧ WF (create_ticket env db now t).1 := by
  have hid : (create_ticket env db now t).2.id = db.nextId := rfl
  have hrows : (create_ticket env db now t).1.rows
      = db.rows ++ [(create_ticket env db now t).2] := rfl
  have hnext : (create_ticket env db now t).1.nextId = db.nextId + 1 := rfl
  refine ⟨rfl, rfl, rfl, ?_, ?_⟩
  · intro hmem
    rcases List.mem_map.mp hmem with ⟨u, hu, hu2⟩
    have := hwf u hu
    rw [hid] at hu2
    omega
  · intro u hu
    rw [hrows] at hu
    rw [hnext]
    rcases List.mem_append.mp hu with h | h
    · exact Nat.lt_succ_of_lt (hwf u h)
    · rw [List.mem_singleton.mp h, hid]
      exact Nat.lt_succ_self _

/-- Witness for C3 at a concrete healthy environment and non-empty
store. -/
theorem create_fresh_record_w :
    (create_ticket envOk db2 25 t0).2.status = "new"
    ∧ (create_ticket envOk db2 25 t0).2.created_at = 25
    ∧ (create_ticket envOk db2 25 t0).2.updated_at = 25
    ∧ (create_ticket envOk db2 25 t0).2.id ∉ db2.rows.map Ticket.id
    ∧ WF (create_ticket envOk db2 25 t0).1 :=
  create_fresh_record envOk db2 25 t0 rfl (by unfold WF; decide)

/-- **C4.** With the credential configured, `analyze_ticket` first issues
the strict output-schema request; if that request succeeds and parses, no
fallback is issued and the parsed dict is returned; if the request or its
parse raises, it issues exactly one JSON-mode fallback request carrying the
textual reminder of the required keys, returning its parsed dict on
success; if the fallback or its parse also raises, that error propagates to
the caller; in every case at most one fallback request is issued (no
further retry). -/
theorem analyze_strict_then_single_fallback
    (env : AiEnv) (hk : pyTruthy env.apiKey = true) :
    (analyze_run env).2.head? = some ModelRequest.strict
    ∧ (∀ d, env.strictResp.bind env.parse = Except.ok d →
        analyze_run env = (Except.ok d, [ModelRequest.strict]))
    ∧ (∀ e, env.strictResp.bind env.parse = Except.error e →
        (analyze_run env).2
            = [ModelRequest.strict, ModelRequest.fallbackJson jsonModeReminder]
          ∧ (∀ d, env.fallbackResp.bind env.parse = Except.ok d →
              (analyze_run env).1 = Except.ok d)
          ∧ (∀ e2, env.fallbackResp.bind env.parse = Except.error e2 →
              (analyze_run env).1 = Except.error (AiError.callError e2)))
    ∧ ((analyze_run env).2.filter isFallbackReq).length ≤ 1 := by
  have hcond : ¬ (pyTruthy env.apiKey = false) := by rw [hk]; simp
  unfold analyze_run
  rw [if_neg hcond]
  cases hs : env.strictResp.bind env.parse with
  | ok d => simp [isFallbackReq]
  | error e =>
    cases hf : env.fallbackResp.bind env.parse with
    | ok d => simp [isFallbackReq]
    | error e2 => simp [isFallbackReq]

/-- Witness for C4: concrete degraded environment — strict call fails, the
single fallback fails, and the fallback error propagates. -/
theorem analyze_strict_then_single_fallback_w :
    (analyze_run envBothFail).2
        = [ModelRequest.strict, ModelRequest.fallbackJson jsonModeReminder]
    ∧ (analyze_run envBothFail).1 = Except.error (AiError.callError "boom-fallback") :=
  ⟨((analyze_strict_then_single_fallback envBothFail rfl).2.2.1 "boom-strict" rfl).1,
   ((analyze_strict_then_single_fallback envBothFail rfl).2.2.1 "boom-strict" rfl).2.2
     "boom-fallback" rfl⟩

/-- Replacing every row of a given id leaves the position of the first
match unchanged, so the re-`SELECT` after an `UPDATE ... WHERE id = ?`
returns the rewritten row. -/
theorem find?_map_replace (id : Nat) (r' : Ticket) (hid : r'.id = id)
    (rows : List Ticket) (r : Ticket)
    (h : List.find? (fun t => t.id = id) rows = some r) :
    List.find? (fun t => t.id = id)
        (rows.map fun t => if t.id = id then r' else t) = some r' := by
  induction rows with
  | nil => simp at h
  | cons a rows ih =>
    by_cases ha : a.id = id
    · simp only [List.map_cons, if_pos ha]
      exact List.find?_cons_of_pos _ (by simp [hid])
    · rw [List.find?_cons_of_neg _ (by simp [ha])] at h
      simp only [List.map_cons, if_neg ha]
      rw [List.find?_cons_of_neg _ (by simp [ha])]
      exact ih h

/-- **C5.** For every update request, invalid input — an empty patch (no
field present) or a field value outside its enum — is rejected as a client
error (the 400 for an empty patch, pydantic's 422 for a bad enum) before
any persistence attempt, and the stored records are left unmodified. -/
theorem invalid_update_rejected_before_persistence
    (db : TicketDB) (now id : Nat) (p : TicketUpdate)
    (hbad : setCount p = 0 ∨ validUpdate p = false) :
    ((update_endpoint db now id p).1 = Except.error ApiError.noFields400
      ∨ (update_endpoint db now id p).1 = Except.error ApiError.validation422)
    ∧ (update_endpoint db now id p).2 = db := by
  by_cases hv : validUpdate p
  · have h0 : setCount p = 0 := by
      rcases hbad with h | h
      · exact h
      · rw [hv] at h; cases h
    unfold update_endpoint
    rw [if_pos hv]
    unfold update_ticket
    rw [if_pos h0]
    exact ⟨Or.inl rfl, rfl⟩
  · unfold update_endpoint
    rw [if_neg hv]
    exact ⟨Or.inr rfl, rfl⟩

/-- Witness for C5: the empty patch against the two-ticket store. -/
theorem invalid_update_rejected_before_persistence_w :
    ((update_endpoint db2 30 1 patchEmpty).1 = Except.error ApiError.noFields400
      ∨ (update_endpoint db2 30 1 patchEmpty).1 = Except.error ApiError.validation422)
    ∧ (update_endpoint db2 30 1 patchEmpty).2 = db2 :=
  invalid_update_rejected_before_persistence db2 30 1 patchEmpty (Or.inl rfl)

/-- **C6.** For every existing ticket, an update supplying a single valid
field (whose value for `status` is not an explicit null, the one case the
`NOT NULL` column rejects — see C9) succeeds and changes only that field
among the caller-settable fields: every unsupplied field — including `id`,
`source`, `subject`, `body`, the customer fields and `created_at` — is
unchanged, the supplied field takes the supplied value, and `updated_at`
is advanced by the trigger to the update instant, strictly later than the
record's previous `updated_at` whenever the clock has advanced. -/
theorem single_field_update_frame
    (db : TicketDB) (now id : Nat) (p : TicketUpdate) (r : Ticket)
    (hfind : List.find? (fun t => t.id = id) db.rows = some r)
    (hone : setCount p = 1)
    (hval : validUpdate p = true)
    (hnn : p.status ≠ some none)
    (hclk : r.updated_at < now) :
    ∃ r', (update_endpoint db now id p).1 = Except.ok r'
      ∧ get_ticket (update_endpoint db now id p).2 id = some r'
      ∧ r'.id = r.id ∧ r'.source = r.source ∧ r'.subject = r.subject
      ∧ r'.body = r.body ∧ r'.customer_name = r.customer_name
      ∧ r'.customer_email = r.customer_email
      ∧ r'.created_at = r.created_at
      ∧ (p.status = none → r'.status = r.status)
      ∧ (p.priority = none → r'.priority = r.priority)
      ∧ (p.category = none → r'.category = r.category)
      ∧ (p.summary = none → r'.summary = r.summary)
      ∧ (p.suggested_reply = none → r'.suggested_reply = r.suggested_reply)
      ∧ (∀ v, p.status = some (some v) → r'.status = v)
      ∧ (∀ v, p.priority = some v → r'.priority = v)
      ∧ (∀ v, p.category = some v → r'.category = v)
      ∧ (∀ v, p.summary = some v → r'.summary = v)
      ∧ (∀ v, p.suggested_reply = some v → r'.suggested_reply = v)
      ∧ r.updated_at < r'.updated_at ∧ r'.updated_at = now := by
  have h0 : ¬ (setCount p = 0) := by rw [hone]; simp
  have hidr : r.id = id := by
    have := List.find?_some hfind
    simpa using this
  refine ⟨applyPatch r p now, ?_, ?_, ?_⟩
  · unfold update_endpoint
    rw [if_pos hval]
    unfold update_ticket
    rw [if_neg h0, hfind]
    dsimp only
    rw [if_neg hnn]
  · have hres : (update_endpoint db now id p).2.rows
        = db.rows.map fun t => if t.id = id then applyPatch r p now else t := by
      unfold update_endpoint
      rw [if_pos hval]
      unfold update_ticket
      rw [if_neg h0, hfind]
      dsimp only
      rw [if_neg hnn]
    unfold get_ticket
    rw [hres]
    exact find?_map_replace id _ (by simpa [applyPatch] using hidr) db.rows r hfind
  · unfold applyPatch
    refine ⟨rfl, rfl, rfl, rfl, rfl, rfl, rfl, ?_, ?_, ?_, ?_, ?_, ?_, ?_, ?_, ?_, ?_,
      hclk, rfl⟩
    · intro h; rw [h]
    · intro h; rw [h]
    · intro h; rw [h]
    · intro h; rw [h]
    · intro h; rw [h]
    · intro v h; rw [h]
    · intro v h; rw [h]
    · intro v h; rw [h]
    · intro v h; rw [h]
    · intro v h; rw [h]

/-- Witness for C6: setting only `status := "resolved"` on the first
fixture ticket at clock 30. -/
theorem single_field_update_frame_w :
    ∃ r', (update_endpoint db2 30 1 patchResolve).1 = Except.ok r'
      ∧ get_ticket (update_endpoint db2 30 1 patchResolve).2 1 = some r'
      ∧ r'.id = tick1.id ∧ r'.source = tick1.source ∧ r'.subject = tick1.subject
      ∧ r'.body = tick1.body ∧ r'.customer_name = tick1.customer_name
      ∧ r'.customer_email = tick1.customer_email
      ∧ r'.created_at = tick1.created_at
      ∧ (patchResolve.status = none → r'.status = tick1.status)
      ∧ (patchResolve.priority = none → r'.priority = tick1.priority)
      ∧ (patchResolve.category = none → r'.category = tick1.category)
      ∧ (patchResolve.summary = none → r'.summary = tick1.summary)
      ∧ (patchResolve.suggested_reply = none → r'.suggested_reply = tick1.suggested_reply)
      ∧ (∀ v, patchResolve.status = some (some v) → r'.status = v)
      ∧ (∀ v, patchResolve.priority = some v → r'.priority = v)
      ∧ (∀ v, patchResolve.category = some v → r'.category = v)
      ∧ (∀ v, patchResolve.summary = some v → r'.summary = v)
      ∧ (∀ v, patchResolve.suggested_reply = some v → r'.suggested_reply = v)
      ∧ tick1.updated_at < r'.updated_at ∧ r'.updated_at = 30 :=
  single_field_update_frame db2 30 1 patchResolve tick1 rfl rfl rfl
    (by simp [patchResolve]) (by decide)

/-- The list query output is sorted by `created_at` descending. -/
theorem list_tickets_sorted (db : TicketDB) (status : Option String)
    (limit offset : Nat) :
    List.Sorted createdDesc (list_tickets db status limit offset) := by
  unfold list_tickets
  exact List.Pairwise.sublist
    ((List.take_sublist _ _).trans (List.drop_sublist _ _))
    (List.sorted_insertionSort createdDesc _)

/-- Every returned ticket is a stored row, and matches the status filter
whenever the filter is a non-empty string. -/
theorem list_tickets_mem (db : TicketDB) (status : Option String)
    (limit offset : Nat) (t : Ticket)
    (ht : t ∈ list_tickets db status limit offset) :
    t ∈ db.rows ∧ (∀ s, status = some s → s ≠ "" → t.status = s) := by
  unfold list_tickets at ht
  have ht2 := List.mem_of_mem_drop (List.mem_of_mem_take ht)
  rw [List.mem_insertionSort] at ht2
  cases hp : pyTruthy status with
  | true =>
    rw [if_pos hp] at ht2
    have hm := List.mem_filter.mp ht2
    refine ⟨hm.1, ?_⟩
    intro s hs _
    subst hs
    simpa using hm.2
  | false =>
    rw [if_neg (by rw [hp]; simp)] at ht2
    refine ⟨ht2, ?_⟩
    intro s hs hne
    subst hs
    simp [pyTruthy] at hp
    exact absurd hp hne

/-- The list query returns at most `limit` rows. -/
theorem list_tickets_length (db : TicketDB) (status : Option String)
    (limit offset : Nat) :
    (list_tickets db status limit offset).length ≤ limit := by
  unfold list_tickets
  rw [List.length_take]
  exact min_le_left _ _

/-- **C7 counterexample.** The claim fails when the status filter is given
as the empty string: `if status:` treats `""` as absent, so no `WHERE`
clause is added and tickets whose status differs from the filter are
returned — here both stored tickets come back although neither has status
`""`. -/
theorem list_empty_filter_returns_all :
    list_tickets db2 (some "") 20 0 = [tick2, tick1]
    ∧ tick2.status ≠ "" ∧ tick1.status ≠ "" :=
  ⟨rfl, by decide, by decide⟩

/-- **C7 (amended).** For every list request, the returned tickets are
stored rows ordered by `created_at` descending (most recent first); when a
*non-empty* status filter is given, only tickets whose status equals the
filter are returned (the empty string disables the filter, see the
counterexample); `limit` defaults to 20 and `offset` to 0, and a supplied
`limit` outside `[1, 100]` or `offset < 0` is rejected with a validation
error, so at most `limit` rows are ever returned. -/
theorem list_endpoint_spec
    (db : TicketDB) (status : Option String) (limitArg offsetArg : Option Int) :
    (∀ ts, list_endpoint db status limitArg offsetArg = Except.ok ts →
      List.Sorted createdDesc ts
      ∧ (∀ s, status = some s → s ≠ "" → ∀ t ∈ ts, t.status = s)
      ∧ ts.length ≤ (limitArg.getD 20).toNat
      ∧ (∀ t ∈ ts, t ∈ db.rows))
    ∧ (¬ (1 ≤ limitArg.getD 20 ∧ limitArg.getD 20 ≤ 100 ∧ 0 ≤ offsetArg.getD 0) →
        list_endpoint db status limitArg offsetArg = Except.error ApiError.validation422) := by
  constructor
  · intro ts hts
    unfold list_endpoint at hts
    by_cases hc : 1 ≤ limitArg.getD 20 ∧ limitArg.getD 20 ≤ 100 ∧ 0 ≤ offsetArg.getD 0
    · rw [if_pos hc] at hts
      have hts' : list_tickets db status (limitArg.getD 20).toNat (offsetArg.getD 0).toNat
          = ts := by
        injection hts
      subst hts'
      refine ⟨list_tickets_sorted db status _ _, ?_, list_tickets_length db status _ _, ?_⟩
      · intro s hs hne t ht
        exact (list_tickets_mem db status _ _ t ht).2 s hs hne
      · intro t ht
        exact (list_tickets_mem db status _ _ t ht).1
    · rw [if_neg hc] at hts
      cases hts
  · intro hc
    unfold list_endpoint
    rw [if_neg hc]

/-- Witness for C7's amended theorem: filtering the two-ticket store by
the non-empty status `"new"` returns exactly the one matching ticket,
sorted. -/
theorem list_endpoint_spec_w :
    list_endpoint db2 (some "new") (some 20) (some 0) = Except.ok [tick1]
    ∧ List.Sorted createdDesc [tick1]
    ∧ tick1.status = "new" :=
  ⟨rfl,
   ((list_endpoint_spec db2 (some "new") (some 20) (some 0)).1 [tick1] rfl).1,
   ((list_endpoint_spec db2 (some "new") (some 20) (some 0)).1 [tick1] rfl).2.1
     "new" rfl (by decide) tick1 (List.mem_singleton.mpr rfl)⟩

/-- **C8.** For every successful create on a well-formed store, a `get`
with the returned id performed on the resulting store returns exactly the
record `create` returned, and every field accepted on creation (`source`,
`customer_name`, `customer_email`, `subject`, `body`) comes back as the
very same string (byte-for-byte, since storage is modelled exactly). -/
theorem create_then_get_roundtrip
    (env : AiEnv) (db : TicketDB) (now : Nat) (t : TicketCreate)
    (hwf : WF db) :
    get_ticket (create_ticket env db now t).1 (create_ticket env db now t).2.id
        = some (create_ticket env db now t).2
    ∧ (create_ticket env db now t).2.source = t.source
    ∧ (create_ticket env db now t).2.customer_name = t.customer_name
    ∧ (create_ticket env db now t).2.customer_email = t.customer_email
    ∧ (create_ticket env db now t).2.subject = t.subject
    ∧ (create_ticket env db now t).2.body = t.body := by
  have hid : (create_ticket env db now t).2.id = db.nextId := rfl
  have hrows : (create_ticket env db now t).1.rows
      = db.rows ++ [(create_ticket env db now t).2] := rfl
  refine ⟨?_, rfl, rfl, rfl, rfl, rfl⟩
  unfold get_ticket
  rw [hrows, hid, List.find?_append]
  have hnone : List.find? (fun u => u.id = db.nextId) db.rows = none := by
    rw [List.find?_eq_none]
    intro x hx
    simp only [decide_eq_true_eq]
    exact Nat.ne_of_lt (hwf x hx)
  rw [hnone, List.find?_cons_of_pos _ (by simp [hid])]
  rfl

/-- Witness for C8: create against the two-ticket store in the healthy
environment, then read the fresh id back. -/
theorem create_then_get_roundtrip_w :
    get_ticket (create_ticket envOk db2 25 t0).1 (create_ticket envOk db2 25 t0).2.id
        = some (create_ticket envOk db2 25 t0).2
    ∧ (create_ticket envOk db2 25 t0).2.source = t0.source
    ∧ (create_ticket envOk db2 25 t0).2.customer_name = t0.customer_name
    ∧ (create_ticket envOk db2 25 t0).2.customer_email = t0.customer_email
    ∧ (create_ticket envOk db2 25 t0).2.subject = t0.subject
    ∧ (create_ticket envOk db2 25 t0).2.body = t0.body :=
  create_then_get_roundtrip envOk db2 25 t0 (by unfold WF; decide)

/-- **C9.** A field explicitly present with value null in an update is not
ignored and does not count as an empty patch.  On an existing ticket,
explicitly nulling `priority`, `category`, `summary` and `suggested_reply`
passes validation, is applied, and clears those fields; explicitly nulling
`status` — a `NOT NULL` column — also passes validation and the empty-patch
check, but the UPDATE then violates the constraint: the failure is the
database `IntegrityError` (a server error, distinct from the client-side
empty-patch and enum rejections) and the store is left unchanged. -/
theorem explicit_null_update
    (db : TicketDB) (now id : Nat) (r : Ticket)
    (hfind : List.find? (fun t => t.id = id) db.rows = some r) :
    (setCount patchNullAiFields ≠ 0
      ∧ validUpdate patchNullAiFields = true
      ∧ ∃ r', (update_endpoint db now id patchNullAiFields).1 = Except.ok r'
          ∧ r'.priority = none ∧ r'.category = none
          ∧ r'.summary = none ∧ r'.suggested_reply = none)
    ∧ (setCount patchNullStatus ≠ 0
      ∧ validUpdate patchNullStatus = true
      ∧ (update_endpoint db now id patchNullStatus).1
          = Except.error ApiError.integrityError500
      ∧ (update_endpoint db now id patchNullStatus).2 = db
      ∧ ApiError.integrityError500 ≠ ApiError.noFields400
      ∧ ApiError.integrityError500 ≠ ApiError.validation422) := by
  constructor
  · refine ⟨by decide, by decide, applyPatch r patchNullAiFields now, ?_, rfl, rfl, rfl, rfl⟩
    unfold update_endpoint
    rw [if_pos (by decide)]
    unfold update_ticket
    rw [if_neg (by decide), hfind]
    dsimp only
    rw [if_neg (by decide)]
  · refine ⟨by decide, by decide, ?_, ?_, by decide, by decide⟩
    · unfold update_endpoint
      rw [if_pos (by decide)]
      unfold update_ticket
      rw [if_neg (by decide), hfind]
      dsimp only
      rw [if_pos (by decide : patchNullStatus.status = some none)]
    · unfold update_endpoint
      rw [if_pos (by decide)]
      unfold update_ticket
      rw [if_neg (by decide), hfind]
      dsimp only
      rw [if_pos (by decide : patchNullStatus.status = some none)]

/-- Witness for C9: the second fixture ticket, whose AI fields are all
set, at clock 30. -/
theorem explicit_null_update_w :
    (setCount patchNullAiFields ≠ 0
      ∧ validUpdate patchNullAiFields = true
      ∧ ∃ r', (update_endpoint db2 30 2 patchNullAiFields).1 = Except.ok r'
          ∧ r'.priority = none ∧ r'.category = none
          ∧ r'.summary = none ∧ r'.suggested_reply = none)
    ∧ (setCount patchNullStatus ≠ 0
      ∧ validUpdate patchNullStatus = true
      ∧ (update_endpoint db2 30 2 patchNullStatus).1
          = Except.error ApiError.integrityError500
      ∧ (update_endpoint db2 30 2 patchNullStatus).2 = db2
      ∧ ApiError.integrityError500 ≠ ApiError.noFields400
      ∧ ApiError.integrityError500 ≠ ApiError.validation422) :=
  explicit_null_update db2 30 2 tick2 rfl

/-- **C10.** A list request whose status parameter is the empty string
applies no status filter at all (Python truthiness treats `""` as absent):
the result is identical to the unfiltered listing.  Moreover the status
filter value is never validated against the status enum: for any string
whatsoever the endpoint succeeds (with in-range pagination defaults)
rather than rejecting the value. -/
theorem empty_status_filter_is_no_filter
    (db : TicketDB) (limit offset : Nat) (s : String) :
    list_tickets db (some "") limit offset = list_tickets db none limit offset
    ∧ ∃ ts, list_endpoint db (some s) none none = Except.ok ts := by
  constructor
  · rfl
  · refine ⟨list_tickets db (some s) 20 0, ?_⟩
    unfold list_endpoint
    rw [if_pos (by norm_num)]
    rfl

/-- Witness for C10: the two-ticket store, an empty filter and an
out-of-enum filter value. -/
theorem empty_status_filter_is_no_filter_w :
    list_tickets db2 (some "") 20 0 = list_tickets db2 none 20 0
    ∧ ∃ ts, list_endpoint db2 (some "garbage") none none = Except.ok ts :=
  empty_status_filter_is_no_filter db2 20 0 "garbage"

end TicketApp
